import Mathlib

/-!
Verification of the browser-automation driver (source files kk.py, ooo.py,
newww.py, om.py) against its natural-language specification.

The development shallowly embeds the parts of the code the claims touch:

* the request-id counter of `BrowserController.send_command` (all variants
  assign `cmd_id = self.command_id; self.command_id += 1`);
* the response wait loop of `send_command`: the kk.py variant polls the
  shared response queue under a 10 second deadline, discarding frames whose
  id differs from its own; the ooo.py and newww.py variants block on the
  queue with no deadline at all;
* the reader thread `_message_handler` / `message_handler`, which routes
  decoded frames carrying an id to the response queue and frames carrying
  only a method to the event queue, and simply exits on socket closure;
* `navigate`, which issues the navigate command, records `current_url`,
  then waits for the load event (bounded to 30 seconds in kk.py and ooo.py,
  unbounded in newww.py) followed by a fixed settle delay;
* the `type` primitives, which splice the caller text directly between
  double quotes inside the page script, modelled with an executable parser
  for JavaScript double-quoted string literals;
* the `press_enter` primitives and the run-result construction of
  om.py `execute_browser_automation` and kk.py `handle_command`.

Page and browser behaviour is abstracted: executing a spliced script either
assigns the value the embedded literal denotes, or is a no-op when the
splice is not a syntactically valid literal.
-/

/-- One decoded inbound response frame, as placed on `response_queue` by the
reader thread: a correlation id, an optional error field and the result
payload (kk.py lines 106-107, ooo.py lines 106-107). -/
structure CdpResp where
  id : Nat
  error : Option String
  result : String
deriving DecidableEq, Repr

/-- Outcome of one `send_command` call.  `ok` is a returned result,
`protocolError` the exception raised on a response carrying an error field,
`timeout` the exception kk.py raises when the 10 second deadline elapses
(naming the method), and `pending` means the call has not yet returned. -/
inductive SendOutcome where
  | ok (result : String)
  | protocolError (message : String)
  | timeout (method : String)
  | pending
deriving DecidableEq, Repr

/-- How a matching response is turned into an outcome: an error field raises,
otherwise the result is returned (kk.py lines 137-141, ooo.py 123-126). -/
def respOutcome (r : CdpResp) : SendOutcome :=
  match r.error with
  | some e => SendOutcome.protocolError e
  | none => SendOutcome.ok r.result

/-- The queue-draining wait loop of kk.py `send_command` (lines 134-143):
pop responses one at a time; a frame whose id differs from the callers id is
dropped on the floor; the first matching frame is returned together with the
part of the queue left unread. -/
def dropUntil (cmdId : Nat) : List CdpResp → Option CdpResp × List CdpResp
  | [] => (none, [])
  | r :: rest => if r.id = cmdId then (some r, rest) else dropUntil cmdId rest

/-- kk.py `send_command` over the responses that arrive within its 10 second
deadline: if the queue holds a matching frame the call returns or raises per
`respOutcome`; otherwise the deadline elapses and the call raises a timeout
naming the method (kk.py line 145). -/
def kkSend (cmdId : Nat) (method : String) (q : List CdpResp) : SendOutcome :=
  match (dropUntil cmdId q).1 with
  | some r => respOutcome r
  | none => SendOutcome.timeout method

/-- The deadline constant of kk.py `send_command` (line 131). -/
def kkSendDeadlineSeconds : Nat := 10

/-- The wait loop of ooo.py and newww.py `send_command` (ooo.py lines
121-126, newww.py lines 195-200): `while True: response = queue.get()`.
There is no deadline; `n` counts scheduler steps granted to the loop, and a
`get` on an empty queue blocks, leaving the call pending no matter how many
further steps elapse. -/
def newwwSendSteps (cmdId : Nat) (q : List CdpResp) (n : Nat) : SendOutcome :=
  match n, q with
  | 0, _ => SendOutcome.pending
  | _ + 1, [] => SendOutcome.pending
  | k + 1, r :: rest =>
    if r.id = cmdId then respOutcome r else newwwSendSteps cmdId rest k

/-- One decoded inbound frame as seen by the reader thread, before routing:
optional id, optional method, optional error, result payload. -/
structure Frame where
  id : Option Nat
  method : Option String
  error : Option String
  result : String
deriving DecidableEq, Repr

/-- The queues and load latch owned by the reader thread. -/
structure HandlerState where
  responses : List CdpResp
  events : List Frame
  page_loaded : Bool
deriving DecidableEq, Repr

/-- Queues start empty and the load latch cleared. -/
def initHandlerState : HandlerState :=
  { responses := [], events := [], page_loaded := false }

/-- Routing of one frame by kk.py `_message_handler` (lines 96-110): a
`Page.loadEventFired` method sets the load latch; a frame with an id goes to
the response queue; otherwise a frame with a method goes to the event
queue. -/
def routeFrame (s : HandlerState) (f : Frame) : HandlerState :=
  let s1 :=
    if f.method = some "Page.loadEventFired" then { s with page_loaded := true } else s
  match f.id with
  | some i =>
    { s1 with responses := s1.responses ++ [{ id := i, error := f.error, result := f.result }] }
  | none =>
    match f.method with
    | some _ => { s1 with events := s1.events ++ [f] }
    | none => s1

/-- The whole reader loop: it processes exactly the frames received before
the socket closed or a decode failed, then exits (kk.py lines 112-114,
ooo.py lines 110-112); nothing else is ever enqueued afterwards. -/
def messageHandlerRun (frames : List Frame) : HandlerState :=
  frames.foldl routeFrame initHandlerState

/-- The driver state the claims touch: the monotonically incremented
`command_id` counter, the `current_url` attribute and the page-load latch
(kk.py lines 41-43, ooo.py lines 48-53). -/
structure BrowserController where
  command_id : Nat
  current_url : Option String
  page_loaded : Bool
deriving DecidableEq, Repr

/-- A fresh session: the counter starts at 1 and no url has been visited
(kk.py line 41, ooo.py line 48, newww.py line 122). -/
def initController : BrowserController :=
  { command_id := 1, current_url := none, page_loaded := false }

/-- Id assignment at the top of every `send_command`: take the current value
of the counter, then increment it (kk.py lines 118-119, ooo.py lines
117-118, newww.py lines 191-192). -/
def sendCommandId (s : BrowserController) : Nat × BrowserController :=
  (s.command_id, { s with command_id := s.command_id + 1 })

/-- The ids handed out by `n` successive `send_command` calls on session
state `s`. -/
def assignedIds (s : BrowserController) : Nat → List Nat
  | 0 => []
  | n + 1 =>
    let p := sendCommandId s
    p.1 :: assignedIds p.2 n

/-- Helper for substring search: whether `pat` is an initial segment of
`s`. -/
def listIsPre : List Char → List Char → Bool
  | [], _ => true
  | _ :: _, [] => false
  | a :: as, b :: bs => a == b && listIsPre as bs

def strContainsAux (pat : List Char) : List Char → Bool
  | [] => listIsPre pat []
  | c :: rest => listIsPre pat (c :: rest) || strContainsAux pat rest

/-- The Python substring test `pat in s`, used by the site-specific
fallbacks as `"youtube.com" in self.current_url` (ooo.py lines 321, 517,
627; newww.py lines 290, 337, 383). -/
def strContains (s pat : String) : Bool := strContainsAux pat.data s.data

/-- The steps `navigate` performs, in source order (kk.py lines 147-162):
clear the load latch, issue the navigate command, record the requested url
in `current_url`, wait for the load event bounded by 30 seconds, then sleep
the fixed 3 second settle delay. -/
inductive NavOp where
  | clearLatch
  | send (method : String)
  | setUrl (url : String)
  | waitLoad (seconds : Nat)
  | settle (seconds : Nat)
deriving DecidableEq, Repr

def kkNavigateOps (url : String) : List NavOp :=
  [NavOp.clearLatch, NavOp.send "Page.navigate", NavOp.setUrl url,
    NavOp.waitLoad 30, NavOp.settle 3]

/-- State effect of kk.py `navigate`: one command id is consumed,
`current_url` becomes the requested url, and the load latch records whether
the load event fired within the 30 second wait.  `current_url` is written
before the wait and nothing later in `navigate` touches it, so the timeout
case leaves the same url (kk.py lines 153-158; the only assignments to
`current_url` in the sources are kk.py 154, ooo.py 132, newww.py 206). -/
def kkNavigate (url : String) (loadFiredWithin30 : Bool) (s : BrowserController) :
    BrowserController :=
  { command_id := s.command_id + 1, current_url := some url,
    page_loaded := loadFiredWithin30 }

/-- The guard every site-specific fallback evaluates:
`"youtube.com" in self.current_url`. -/
def youtubeFallbackActive (s : BrowserController) : Bool :=
  match s.current_url with
  | some u => strContains u "youtube.com"
  | none => false

/-- Result of the load wait in kk.py and ooo.py `navigate`: how long the
wait blocked and whether it gave up at the 30 second bound.  `loadAt` is
the instant the load event fires, `none` for a page that never fires one
(kk.py line 157, ooo.py lines 135-143). -/
structure NavResult where
  waitedSeconds : Nat
  loadTimedOut : Bool
deriving DecidableEq, Repr

def kkNavigateWait (loadAt : Option Nat) : NavResult :=
  match loadAt with
  | some t =>
    if t ≤ 30 then { waitedSeconds := t, loadTimedOut := false }
    else { waitedSeconds := 30, loadTimedOut := true }
  | none => { waitedSeconds := 30, loadTimedOut := true }

/-- Total blocking time of kk.py `navigate` after issuing the command: the
load wait plus the fixed 3 second settle delay (kk.py lines 157-161). -/
def kkNavigateTotalSeconds (loadAt : Option Nat) : Nat :=
  (kkNavigateWait loadAt).waitedSeconds + 3

/-- The load wait of newww.py `navigate` (lines 207-210):
`while True: event = self.event_queue.get()` until a `Page.loadEventFired`
method arrives.  `events` are the queued event methods, `n` the scheduler
steps granted; the result is whether the wait has returned.  A `get` on an
empty queue blocks forever. -/
def newwwNavigateLoop (events : List String) (n : Nat) : Bool :=
  match n, events with
  | 0, _ => false
  | _ + 1, [] => false
  | k + 1, e :: rest =>
    if e = "Page.loadEventFired" then true else newwwNavigateLoop rest k

/-- Translate an escape character of a JavaScript double-quoted string
literal to the character it denotes (only the escapes the claims exercise
are distinguished; every other escaped character denotes itself). -/
def jsUnescape (c : Char) : Char :=
  if c = 'n' then '\n'
  else if c = 't' then '\t'
  else if c = 'r' then '\r'
  else c

/-- Parse the body of a JavaScript double-quoted string literal: returns the
denoted characters and the input remaining after the closing quote, or
`none` when the literal is unterminated or contains a raw newline. -/
def parseJsChars : List Char → Option (List Char × List Char)
  | [] => none
  | c :: rest =>
    if c = '"' then some ([], rest)
    else if c = '\n' then none
    else if c = '\\' then
      match rest with
      | [] => none
      | e :: rest2 =>
        match parseJsChars rest2 with
        | some (v, rem) => some (jsUnescape e :: v, rem)
        | none => none
    else
      match parseJsChars rest with
      | some (v, rem) => some (c :: v, rem)
      | none => none

/-- Value of a complete JavaScript double-quoted string literal: `some v`
when the whole input is exactly one well-formed literal denoting `v`, and
`none` when the literal is malformed or does not end where the surrounding
script template expects it to (in which case the generated script is
syntactically invalid). -/
def parseJsLit (s : String) : Option String :=
  match s.data with
  | '"' :: rest =>
    match parseJsChars rest with
    | some (v, []) => some (String.mk v)
    | _ => none
  | _ => none

/-- The literal the `type` primitives build by splicing the caller text
between two double quotes with no escaping: newww.py line 316
`elements[i].value = "{text}"`, ooo.py line 532, kk.py line 353. -/
def jsQuote (text : String) : String := "\"" ++ text ++ "\""

/-- The per-character literal ooo.py `type` builds in its loop (line 486):
`element.value += "{char}"`. -/
def charLit (c : Char) : String := String.mk ['"', c, '"']

/-- Effect of one iteration of the ooo.py character loop on the field value:
when the spliced one-character literal parses, its value is appended; when
the generated script is syntactically invalid the evaluation throws inside
the page and the value is unchanged (ooo.py lines 481-496 ignore the return
value of each script). -/
def oooAppendChar (v : String) (c : Char) : String :=
  match parseJsLit (charLit c) with
  | some piece => v ++ piece
  | none => v

/-- Final field value after ooo.py `type` clears the field (line 467) and
runs the character loop over `text`. -/
def oooTypeResult (text : String) : String :=
  text.data.foldl oooAppendChar ""

/-- Outcome of one `type` call: the verification error raised, if any, and
the field value the page ends up with. -/
structure TypeOutcome where
  verificationError : Option String
  finalValue : String
deriving DecidableEq, Repr

/-- ooo.py `type` (lines 441-539): after the clear and the character loop it
dispatches the final input and change events and returns; no read-back
comparison of the field value against `text` exists anywhere in the
function, so no verification error can be raised. -/
def oooTypeOutcome (text : String) : TypeOutcome :=
  { verificationError := none, finalValue := oooTypeResult text }

/-- newww.py `type` (lines 305-352): the main script assigns the spliced
literal when it parses (otherwise the generated script is invalid and the
field keeps its prior content `initial`); the value is then read back and
compared with `text` (line 332) and a mismatch raises (line 333).  The
raised exception lands in the except block: when the sessions
`current_url` contains youtube.com (`onYoutube`), the fallback re-splices
the same text into the alternative search selectors and returns True with
no read-back verification at all (lines 337-352), swallowing the mismatch;
on any other session the exception propagates to the caller. -/
def newwwTypeRun (onYoutube : Bool) (initial text : String) : TypeOutcome :=
  let assigned :=
    match parseJsLit (jsQuote text) with
    | some v => v
    | none => initial
  if assigned = text then { verificationError := none, finalValue := assigned }
  else if onYoutube then { verificationError := none, finalValue := assigned }
  else
    { verificationError := some ("Typed text not found in element; got " ++ assigned),
      finalValue := assigned }

/-- The observable actions of a `press_enter` call. -/
inductive EnterAct where
  | focus
  | keyEvent (name : String)
  | submitTargetForm
  | submitFirstDocForm
deriving DecidableEq, Repr

/-- ooo.py `press_enter` (lines 541-603): focus the target, dispatch
keydown, keypress and keyup KeyboardEvents, then submit `element.form`
exactly when the element belongs to a form (line 592). -/
def press_enter_ooo (targetInForm : Bool) : List EnterAct :=
  [EnterAct.focus, EnterAct.keyEvent "keydown", EnterAct.keyEvent "keypress",
    EnterAct.keyEvent "keyup"]
    ++ (if targetInForm then [EnterAct.submitTargetForm] else [])

/-- kk.py `press_enter` (lines 386-434): focus the selector if given,
dispatch only keyDown and keyUp through the Input domain (no keypress), then
submit `document.querySelector("form")` whenever the document contains any
form at all — the membership of the target in a form is never consulted
(lines 425-430). -/
def press_enter_kk (_targetInForm docHasForm : Bool) : List EnterAct :=
  [EnterAct.focus, EnterAct.keyEvent "keyDown", EnterAct.keyEvent "keyUp"]
    ++ (if docHasForm then [EnterAct.submitFirstDocForm] else [])

/-- Per-step status string recorded by om.py `execute_browser_automation`
(lines 276, 412). -/
def omStepStatus (ok : Bool) : String := if ok then "success" else "error"

/-- The run result of om.py: overall status plus the per-step history. -/
structure OmResult where
  status : String
  steps_results : List String
deriving DecidableEq, Repr

/-- om.py `execute_browser_automation` (lines 260-427): every step appends a
result record; after the loop the status is downgraded to
`partial_success` exactly when some step recorded an error (lines
417-419), otherwise it stays `success`. -/
def execute_browser_automation (steps : List Bool) : OmResult :=
  let rs := steps.map omStepStatus
  { status := if rs.any (fun r => r == "error") then "partial_success" else "success",
    steps_results := rs }

/-- om.py abort path (line 431): a driver-level exception yields status
`error` and no step history. -/
def omAbortedResult : OmResult :=
  { status := "error", steps_results := [] }

/-- kk.py `handle_command` (lines 593-606): the HTTP response carries only a
status that is `success` or `error` according to the boolean returned by
`execute_command`, plus a message; no step history is ever included. -/
def handle_command (success : Bool) : String × String :=
  (if success then "success" else "error",
    if success then "Command completed" else "Command failed")

theorem assignedIds_eq_range' (n : Nat) :
    ∀ s : BrowserController, assignedIds s n = List.range' s.command_id n := by
  induction n with
  | zero => intro s; rfl
  | succ n ih =>
    intro s
    rw [List.range'_succ]
    show s.command_id :: assignedIds (sendCommandId s).2 n = _
    rw [ih]
    rfl

theorem dropUntil_some (cmdId : Nat) (q : List CdpResp) (r : CdpResp) (q' : List CdpResp)
    (h : dropUntil cmdId q = (some r, q')) : r.id = cmdId ∧ r ∈ q := by
  induction q generalizing q' with
  | nil => simp [dropUntil] at h
  | cons a rest ih =>
    by_cases ha : a.id = cmdId
    · simp [dropUntil, ha] at h
      obtain ⟨h1, _⟩ := h
      subst h1
      exact ⟨ha, List.mem_cons_self a rest⟩
    · simp [dropUntil, ha] at h
      obtain ⟨h1, h2⟩ := ih _ h
      exact ⟨h1, List.mem_cons_of_mem a h2⟩

/-- C1: within one session the ids assigned by successive `send_command`
calls are exactly 1, 2, ..., n: positive, unique, strictly increasing from
1, and never reused for a second command. -/
theorem c1_request_ids_strictly_increasing (n : Nat) :
    assignedIds initController n = List.range' 1 n
    ∧ List.Pairwise (· < ·) (assignedIds initController n)
    ∧ (assignedIds initController n).Nodup := by
  have h : assignedIds initController n = List.range' 1 n := assignedIds_eq_range' n initController
  refine ⟨h, ?_, ?_⟩
  · rw [h]; exact List.pairwise_lt_range' 1 n
  · rw [h]; exact List.nodup_range' 1 n

/-- C1 witness: the first three assigned ids are 1, 2, 3. -/
theorem c1_request_ids_witness :
    assignedIds initController 3 = List.range' 1 3 :=
  (c1_request_ids_strictly_increasing 3).1

/-- C2 counterexample: kk.py takes no lock around `send_command`, so two
calls can be in flight at once over the one shared response queue.  Schedule:
requests 1 and 2 are pending and the response addressed to request 1 is in
the queue; the waiter for request 2 runs its poll loop first, pops the frame,
finds the id differs and discards it (queue now empty); the waiter for
request 1 then finds nothing and is left to time out.  The last conjunct
shows the same frame would have been delivered had its own waiter polled
first, so the discard is what changed the outcome of request 1. -/
theorem c2_counterexample :
    (dropUntil 2 [{ id := 1, error := none, result := "r1" }]).1 = none
    ∧ (dropUntil 2 [{ id := 1, error := none, result := "r1" }]).2 = []
    ∧ (dropUntil 1 (dropUntil 2 [{ id := 1, error := none, result := "r1" }]).2).1 = none
    ∧ (dropUntil 1 [{ id := 1, error := none, result := "r1" }]).1
        = some { id := 1, error := none, result := "r1" } := by
  refine ⟨rfl, rfl, rfl, rfl⟩

/-- C2 amended: whenever a `send_command` wait loop returns a response, that
response carries exactly the callers request id and came from the queue; in
ooo.py and newww.py the lock keeps at most one request in flight, so every
response is either returned to the unique pending request whose id it
carries or discarded harmlessly, while in kk.py (no lock) a concurrent wait
loop may discard a response addressed to another pending request, which then
times out. -/
theorem c2_amended_matched_delivery (cmdId : Nat) (q : List CdpResp) (r : CdpResp)
    (q' : List CdpResp) (h : dropUntil cmdId q = (some r, q')) :
    r.id = cmdId ∧ r ∈ q :=
  dropUntil_some cmdId q r q' h

/-- C2 witness: a concrete delivered response carries the waiting id. -/
theorem c2_amended_witness :
    ({ id := 5, error := none, result := "v" } : CdpResp).id = 5
    ∧ ({ id := 5, error := none, result := "v" } : CdpResp)
        ∈ [({ id := 5, error := none, result := "v" } : CdpResp)] :=
  c2_amended_matched_delivery 5 [{ id := 5, error := none, result := "v" }]
    { id := 5, error := none, result := "v" } [] (by decide)

/-- C3 counterexample: the newww.py (and ooo.py) `send_command` wait loop has
no deadline: with no matching response it is still pending after 100
scheduler steps, far beyond any 10 second deadline, and no timeout failure
naming the method is ever produced.  The last conjunct shows the loop does
return a matching response when one arrives, so the model is not rigged. -/
theorem c3_counterexample :
    newwwSendSteps 1 [] 100 = SendOutcome.pending
    ∧ SendOutcome.pending ≠ SendOutcome.timeout "Page.enable"
    ∧ newwwSendSteps 1 [{ id := 1, error := none, result := "ok" }] 100
        = SendOutcome.ok "ok" := by
  refine ⟨rfl, by decide, rfl⟩

/-- C3 amended: kk.py `send_command` is bounded by its fixed 10 second
deadline — it returns the first matching responses result, raises a
protocol error when that response carries an error field, and otherwise
raises a timeout naming the method; it never stays pending.  ooo.py and
newww.py `send_command` have no deadline and remain pending forever when no
matching response arrives. -/
theorem c3_amended_bounded_vs_unbounded (cmdId : Nat) (method : String)
    (q : List CdpResp) (r : CdpResp) (n : Nat) :
    ((dropUntil cmdId q).1 = none → kkSend cmdId method q = SendOutcome.timeout method)
    ∧ ((dropUntil cmdId q).1 = some r →
        kkSend cmdId method q = respOutcome r ∧ r.id = cmdId)
    ∧ kkSend cmdId method q ≠ SendOutcome.pending
    ∧ kkSendDeadlineSeconds = 10
    ∧ newwwSendSteps cmdId [] n = SendOutcome.pending := by
  refine ⟨?_, ?_, ?_, rfl, ?_⟩
  · intro h; simp [kkSend, h]
  · intro h
    refine ⟨by simp [kkSend, h], ?_⟩
    have := dropUntil_some cmdId q r (dropUntil cmdId q).2
      (by rw [← h])
    exact this.1
  · unfold kkSend
    cases hd : (dropUntil cmdId q).1 with
    | none => simp
    | some r0 =>
      simp only []
      unfold respOutcome
      cases r0.error <;> simp
  · cases n <;> rfl

/-- C3 witness: with an empty queue the kk.py call times out naming the
method, after discharging the no-matching-response hypothesis. -/
theorem c3_amended_witness :
    kkSend 7 "Runtime.enable" [] = SendOutcome.timeout "Runtime.enable" :=
  (c3_amended_bounded_vs_unbounded 7 "Runtime.enable" []
    { id := 7, error := none, result := "" } 0).1 (by decide)

/-- C4 counterexample: newww.py `navigate` waits for the load event with
`while True: event_queue.get()`; on a page that never fires a load event the
wait has still not returned after 1000 scheduler steps, far beyond the
30 second load wait plus settle delay the claim allows, so `navigate`
hangs.  The second conjunct shows the loop does return once the load event
arrives, so the model is not rigged. -/
theorem c4_counterexample :
    newwwNavigateLoop [] 1000 = false
    ∧ newwwNavigateLoop ["Page.loadEventFired"] 1 = true := by
  refine ⟨rfl, rfl⟩

/-- C4 amended: in kk.py (and ooo.py) `navigate` blocks for at most the
30 second load wait plus the fixed 3 second settle delay, even on a page
that never fires a load event, and the timeout only sets a logged flag; in
newww.py the load wait is unbounded and `navigate` never returns when no
load event arrives. -/
theorem c4_amended_navigate_bounded (loadAt : Option Nat) (n : Nat) :
    kkNavigateTotalSeconds loadAt ≤ 33
    ∧ kkNavigateWait none = { waitedSeconds := 30, loadTimedOut := true }
    ∧ kkNavigateTotalSeconds none = 33
    ∧ newwwNavigateLoop [] n = false := by
  refine ⟨?_, rfl, rfl, ?_⟩
  · unfold kkNavigateTotalSeconds kkNavigateWait
    cases loadAt with
    | none => simp
    | some t =>
      by_cases h : t ≤ 30 <;> simp [h]
  · cases n <;> rfl

/-- C4 witness: the bound instantiated on a page that never loads. -/
theorem c4_amended_witness : kkNavigateTotalSeconds none ≤ 33 :=
  (c4_amended_navigate_bounded none 0).1

/-- C5 counterexample: when the session closes the reader thread just breaks
out of its loop; nothing resolves pending requests.  A command pending at
close in kk.py is left to hit the 10 second command timeout — the outcome is
the timeout exception naming the method, not any connection-closed error —
and in ooo.py and newww.py the pending call blocks forever (still pending
after 1000 steps), silently hanging. -/
theorem c5_counterexample :
    kkSend 3 "DOM.enable" [] = SendOutcome.timeout "DOM.enable"
    ∧ newwwSendSteps 4 [] 1000 = SendOutcome.pending := by
  refine ⟨rfl, rfl⟩

/-- C5 amended: socket closure terminates the reader loop without enqueuing
anything further and without touching pending requests; a command
outstanding at close therefore polls a queue that stays empty: in kk.py it
fails with the 10 second command timeout (naming the method), and in ooo.py
and newww.py it remains pending for ever — no connection-closed resolution
exists in any variant. -/
theorem c5_amended_close_leaves_pending (cmdId : Nat) (method : String) (n : Nat) :
    (messageHandlerRun []).responses = []
    ∧ kkSend cmdId method (messageHandlerRun []).responses = SendOutcome.timeout method
    ∧ newwwSendSteps cmdId (messageHandlerRun []).responses n = SendOutcome.pending := by
  refine ⟨rfl, rfl, ?_⟩
  cases n <;> rfl

/-- C5 witness: a concrete pending command at close. -/
theorem c5_amended_witness :
    kkSend 9 "Page.enable" (messageHandlerRun []).responses
      = SendOutcome.timeout "Page.enable" :=
  (c5_amended_close_leaves_pending 9 "Page.enable" 0).2.1

/-- C6 counterexample: for the text `a"b` the per-character splice of
ooo.py `type` silently drops the double-quote character (its generated
script is syntactically invalid), the field ends up holding `ab`, yet the
call raises no verification error at all — ooo.py `type` has no read-back
comparison.  In newww.py on a YouTube session the verification mismatch is
raised but then swallowed by the except-block fallback, which returns True
with no read-back, so `type` completes without raising while the field
holds the empty string rather than `a"b`; only a non-YouTube newww.py
session actually surfaces the mismatch. -/
theorem c6_counterexample :
    (oooTypeOutcome "a\"b").verificationError = none
    ∧ (oooTypeOutcome "a\"b").finalValue = "ab"
    ∧ (("ab" : String) == "a\"b") = false
    ∧ (newwwTypeRun true "" "a\"b").verificationError = none
    ∧ (newwwTypeRun true "" "a\"b").finalValue = ""
    ∧ (("" : String) == "a\"b") = false
    ∧ (newwwTypeRun false "" "a\"b").verificationError.isSome = true := by
  refine ⟨rfl, rfl, by decide, by decide, by decide, by decide, by decide⟩

/-- C6 amended: in newww.py, on a session whose `current_url` does not
contain youtube.com, whenever `type` completes without a verification error
the read-back field value equals the intended text, and a mismatch raises;
on a YouTube session the except-block fallback swallows the mismatch and
`type` never raises a verification error, whatever value the field ends up
with; in ooo.py, `type` performs no verification at all and likewise never
raises a verification error. -/
theorem c6_amended_type_verification (initial text : String) :
    ((newwwTypeRun false initial text).verificationError = none →
      (newwwTypeRun false initial text).finalValue = text)
    ∧ (newwwTypeRun true initial text).verificationError = none
    ∧ (oooTypeOutcome text).verificationError = none := by
  refine ⟨?_, ?_, rfl⟩ <;>
    unfold newwwTypeRun <;>
    by_cases h :
        (match parseJsLit (jsQuote text) with
          | some v => v
          | none => initial) = text <;> simp [h]

/-- C6 witness: typing the spec example text through newww.py on a
non-YouTube session leaves the field holding exactly that text. -/
theorem c6_amended_witness :
    (newwwTypeRun false "" "hello world").finalValue = "hello world" :=
  (c6_amended_type_verification "" "hello world").1 (by decide)

theorem om_any_error (steps : List Bool) :
    (steps.map omStepStatus).any (fun r => r == "error") = steps.any (fun b => !b) := by
  induction steps with
  | nil => rfl
  | cons a t ih => cases a <;> simp [omStepStatus, ih]

theorem om_all_not_any (steps : List Bool) :
    steps.all (fun b => b) = !(steps.any (fun b => !b)) := by
  induction steps with
  | nil => rfl
  | cons a t ih => cases a <;> simp [ih]

/-- C7 counterexample: a run in which one step failed gets overall status
`partial_success`, not the `partial` the claim states; and the kk.py entry
point knows only the statuses `success` and `error` (with no step history
in its response at all). -/
theorem c7_counterexample :
    (execute_browser_automation [false]).status = "partial_success"
    ∧ (execute_browser_automation [false]).status ≠ "partial"
    ∧ (handle_command true).1 = "success"
    ∧ (handle_command false).1 = "error" := by
  refine ⟨rfl, by decide, rfl, rfl⟩

/-- C7 amended: om.py `execute_browser_automation` reports status `success`
exactly when every executed step succeeded and `partial_success` exactly
when some step failed, always carrying one history record per step; an
aborted run reports status `error`; kk.py `handle_command` reports only
`success` or `error` with no history. -/
theorem c7_amended_run_status (steps : List Bool) :
    ((execute_browser_automation steps).status = "success"
        ↔ steps.all (fun b => b) = true)
    ∧ ((execute_browser_automation steps).status = "partial_success"
        ↔ steps.any (fun b => !b) = true)
    ∧ (execute_browser_automation steps).steps_results.length = steps.length
    ∧ omAbortedResult.status = "error" := by
  have hany := om_any_error steps
  have hall := om_all_not_any steps
  refine ⟨?_, ?_, ?_, rfl⟩
  · show (if (steps.map omStepStatus).any (fun r => r == "error")
        then "partial_success" else "success") = "success" ↔ _
    rw [hany]
    cases h : steps.any (fun b => !b) <;> simp [hall, h]
  · show (if (steps.map omStepStatus).any (fun r => r == "error")
        then "partial_success" else "success") = "partial_success" ↔ _
    rw [hany]
    cases h : steps.any (fun b => !b) <;> simp [h]
  · show (steps.map omStepStatus).length = steps.length
    exact List.length_map steps omStepStatus

/-- C7 witness: a run whose steps all succeeded reports `success`. -/
theorem c7_amended_witness :
    (execute_browser_automation [true, true]).status = "success" :=
  ((c7_amended_run_status [true, true]).1).mpr (by decide)

/-- C8 counterexample: in kk.py, for a target that belongs to no form on a
page that does contain a form, `press_enter` still submits the documents
first form, and its dispatched key sequence contains no keypress event —
refuting both the full key sequence and the submission firing exactly when
the target belongs to a form. -/
theorem c8_counterexample :
    EnterAct.submitFirstDocForm ∈ press_enter_kk false true
    ∧ EnterAct.keyEvent "keypress" ∉ press_enter_kk false true
    ∧ EnterAct.submitTargetForm ∉ press_enter_kk false true := by
  refine ⟨by decide, by decide, by decide⟩

/-- C8 amended: in ooo.py, `press_enter` focuses the target, dispatches
keydown, keypress and keyup in that order, and additionally submits the
targets own form exactly when the target belongs to a form; in kk.py it
dispatches only keyDown and keyUp and submits the documents first form
exactly when the document contains any form, regardless of the target. -/
theorem c8_amended_press_enter (targetInForm docHasForm : Bool) :
    (EnterAct.submitTargetForm ∈ press_enter_ooo targetInForm ↔ targetInForm = true)
    ∧ (press_enter_ooo targetInForm)[0]? = some EnterAct.focus
    ∧ (press_enter_ooo targetInForm)[1]? = some (EnterAct.keyEvent "keydown")
    ∧ (press_enter_ooo targetInForm)[2]? = some (EnterAct.keyEvent "keypress")
    ∧ (press_enter_ooo targetInForm)[3]? = some (EnterAct.keyEvent "keyup")
    ∧ (EnterAct.submitFirstDocForm ∈ press_enter_kk targetInForm docHasForm
        ↔ docHasForm = true)
    ∧ EnterAct.keyEvent "keypress" ∉ press_enter_kk targetInForm docHasForm := by
  cases targetInForm <;> cases docHasForm <;> exact (by decide)

/-- C8 witness: a target inside a form gets its form submitted by ooo.py. -/
theorem c8_amended_witness :
    EnterAct.submitTargetForm ∈ press_enter_ooo true :=
  (c8_amended_press_enter true false).1.mpr rfl

/-- C9: the `type` primitives splice the caller text between double quotes
with no escaping.  For the text `a"b` the resulting literal is syntactically
invalid; for a text containing a backslash followed by n the script parses
but denotes a different string (a newline); and ooo.py `type` consequently
leaves `ab` in the field rather than the verbatim `a"b`.  A benign text
round-trips, so the parser is faithful on the inputs the code normally
sees. -/
theorem c9_unescaped_splice :
    parseJsLit (jsQuote "a\"b") = none
    ∧ parseJsLit (jsQuote "a\\nb") = some "a\nb"
    ∧ (("a\nb" : String) == "a\\nb") = false
    ∧ (oooTypeOutcome "a\"b").finalValue = "ab"
    ∧ (("ab" : String) == "a\"b") = false
    ∧ parseJsLit (jsQuote "hello world") = some "hello world" := by
  refine ⟨rfl, rfl, by decide, rfl, by decide, rfl⟩

/-- C10: `navigate` records the requested url in `current_url` immediately
after issuing the navigate command (operation index 2) and before the load
wait (operation index 3); the stored value is the requested url whether or
not the load event fired; and the site-specific fallback guard
`"youtube.com" in self.current_url` therefore keys off the requested url,
not the page actually loaded. -/
theorem c10_current_url_requested (url : String) (loadFired : Bool)
    (s : BrowserController) :
    (kkNavigate url loadFired s).current_url = some url
    ∧ youtubeFallbackActive (kkNavigate url loadFired s)
        = strContains url "youtube.com"
    ∧ (kkNavigateOps url)[2]? = some (NavOp.setUrl url)
    ∧ (kkNavigateOps url)[3]? = some (NavOp.waitLoad 30)
    ∧ strContains "https://www.youtube.com/" "youtube.com" = true
    ∧ strContains "https://www.google.com/" "youtube.com" = false := by
  refine ⟨rfl, rfl, rfl, rfl, by decide, by decide⟩

/-- C10 witness: after navigating to YouTube the guard is active even when
the load event never fired. -/
theorem c10_witness :
    (kkNavigate "https://www.youtube.com/" false initController).current_url
      = some "https://www.youtube.com/" :=
  (c10_current_url_requested "https://www.youtube.com/" false initController).1
